import Mathlib

/-!
Shallow embedding of revault_tx (src/src/transactions.rs): typed Bitcoin
transaction construction, sighash selection, the input satisfier engine and
the chain verifier, together with theorems settling the specification claims.

Machine integers (u32 sequences, u64 amounts, i32 version) are embedded as
Nat or Int; none of the modelled code paths perform wrapping arithmetic on
them, only construction, copying and equality tests.  External library
values (txids, scripts, serialized bytes, signatures, keys) are embedded as
abstract data or as explicit function parameters, since the repository only
routes them around.
-/

namespace RevaultTx

/-! Data model: the subset of the bitcoin library types used by the code. -/

/-- Transaction identifiers, abstract: the repository never inspects one,
it only compares them and stores them in outpoints. -/
abbrev Txid := Nat

/-- Script bytes, abstract byte list. -/
abbrev Script := List Nat

/-- A reference to an output of a transaction (bitcoin::OutPoint). -/
structure OutPoint where
  txid : Txid
  vout : Nat
  deriving DecidableEq

/-- A transaction output (bitcoin::TxOut): amount and spending script. -/
structure TxOut where
  value : Nat
  script_pubkey : Script
  deriving DecidableEq

/-- A transaction input (bitcoin::TxIn). -/
structure TxIn where
  previous_output : OutPoint
  script_sig : Script
  sequence : Nat
  witness : List Script
  deriving DecidableEq

/-- TxIn::default(): null previous output, empty scripts, final sequence. -/
def TxIn.default : TxIn :=
  { previous_output := { txid := 0, vout := 4294967295 }
    script_sig := []
    sequence := 4294967295
    witness := [] }

/-- A raw transaction (bitcoin::Transaction). -/
structure Transaction where
  version : Int
  lock_time : Nat
  input : List TxIn
  output : List TxOut
  deriving DecidableEq

/-- TxIn's sequence to set for the tx to be bip125-replaceable
(transactions.rs line 18: u32::MAX - 2). -/
def RBF_SEQUENCE : Nat := 4294967295 - 2

/-- Modelled from the spec: the role-tagged previous-output reference for a
vault output (crate::prevouts, not under src); a tagged wrapper around an
outpoint exposing outpoint extraction. -/
structure VaultPrevout where
  outpoint : OutPoint
  deriving DecidableEq

/-- Modelled from the spec: the role-tagged previous-output reference for an
unvault output (crate::prevouts, not under src). -/
structure UnvaultPrevout where
  outpoint : OutPoint
  deriving DecidableEq

/-- Modelled from the spec: the role-tagged previous-output reference for a
fee-bump output (crate::prevouts, not under src). -/
structure FeeBumpPrevout where
  outpoint : OutPoint
  deriving DecidableEq

/-- Modelled from the spec: the role-tagged vault txout (crate::txouts, not
under src); a tagged wrapper around an amount+script pair exposing
raw-output materialization (get_txout) and inner access (inner_txout). -/
structure VaultTxOut where
  txout : TxOut
  deriving DecidableEq

/-- Modelled from the spec: the role-tagged unvault txout (crate::txouts). -/
structure UnvaultTxOut where
  txout : TxOut
  deriving DecidableEq

/-- Modelled from the spec: the role-tagged cpfp txout (crate::txouts). -/
structure CpfpTxOut where
  txout : TxOut
  deriving DecidableEq

/-- Modelled from the spec: the role-tagged emergency txout (crate::txouts). -/
structure EmergencyTxOut where
  txout : TxOut
  deriving DecidableEq

/-- Modelled from the spec: the role-tagged fee-bump txout (crate::txouts). -/
structure FeeBumpTxOut where
  txout : TxOut
  deriving DecidableEq

/-- Modelled from the spec: a spend transaction output is either a
destination payment or a vault-change output (crate::txouts). -/
inductive SpendTxOut
  | Destination (txo : TxOut)
  | Change (txo : TxOut)
  deriving DecidableEq

def VaultTxOut.get_txout (t : VaultTxOut) : TxOut := t.txout

def VaultTxOut.inner_txout (t : VaultTxOut) : TxOut := t.txout

def UnvaultTxOut.get_txout (t : UnvaultTxOut) : TxOut := t.txout

def UnvaultTxOut.inner_txout (t : UnvaultTxOut) : TxOut := t.txout

def CpfpTxOut.get_txout (t : CpfpTxOut) : TxOut := t.txout

def EmergencyTxOut.get_txout (t : EmergencyTxOut) : TxOut := t.txout

def FeeBumpTxOut.inner_txout (t : FeeBumpTxOut) : TxOut := t.txout

/-- The create_tx! macro (transactions.rs lines 81-98): assemble a raw
transaction from (outpoint, sequence) pairs and a txout list; version 2,
lock_time 0, every other TxIn field defaulted. -/
def create_tx (inputs : List (OutPoint × Nat)) (outputs : List TxOut) : Transaction :=
  { version := 2
    lock_time := 0
    input := inputs.map (fun p =>
      { TxIn.default with previous_output := p.1, sequence := p.2 })
    output := outputs }

/-- The unvaulting transaction newtype. -/
structure UnvaultTransaction where
  tx : Transaction
  deriving DecidableEq

/-- UnvaultTransaction::new (transactions.rs lines 107-116). -/
def UnvaultTransaction.new (vault_input : VaultPrevout × Nat)
    (unvault_txout : UnvaultTxOut) (cpfp_txout : CpfpTxOut) : UnvaultTransaction :=
  ⟨create_tx [(vault_input.1.outpoint, vault_input.2)]
    [unvault_txout.get_txout, cpfp_txout.get_txout]⟩

/-- The cancel transaction newtype. -/
structure CancelTransaction where
  tx : Transaction
  deriving DecidableEq

/-- CancelTransaction::new (transactions.rs lines 126-142). -/
def CancelTransaction.new (unvault_input : UnvaultPrevout × Nat)
    (feebump_input : Option (FeeBumpPrevout × Nat))
    (vault_txout : VaultTxOut) : CancelTransaction :=
  ⟨match feebump_input with
   | some fb =>
     create_tx [(unvault_input.1.outpoint, unvault_input.2), (fb.1.outpoint, fb.2)]
       [vault_txout.get_txout]
   | none =>
     create_tx [(unvault_input.1.outpoint, unvault_input.2)] [vault_txout.get_txout]⟩

/-- The vault emergency transaction newtype. -/
structure EmergencyTransaction where
  tx : Transaction
  deriving DecidableEq

/-- EmergencyTransaction::new (transactions.rs lines 152-168). -/
def EmergencyTransaction.new (vault_input : VaultPrevout × Nat)
    (feebump_input : Option (FeeBumpPrevout × Nat))
    (emer_txout : EmergencyTxOut) : EmergencyTransaction :=
  ⟨match feebump_input with
   | some fb =>
     create_tx [(vault_input.1.outpoint, vault_input.2), (fb.1.outpoint, fb.2)]
       [emer_txout.get_txout]
   | none =>
     create_tx [(vault_input.1.outpoint, vault_input.2)] [emer_txout.get_txout]⟩

/-- The unvault emergency transaction newtype. -/
structure UnvaultEmergencyTransaction where
  tx : Transaction
  deriving DecidableEq

/-- UnvaultEmergencyTransaction::new (transactions.rs lines 178-195). -/
def UnvaultEmergencyTransaction.new (unvault_input : UnvaultPrevout × Nat)
    (feebump_input : Option (FeeBumpPrevout × Nat))
    (emer_txout : EmergencyTxOut) : UnvaultEmergencyTransaction :=
  ⟨match feebump_input with
   | some fb =>
     create_tx [(unvault_input.1.outpoint, unvault_input.2), (fb.1.outpoint, fb.2)]
       [emer_txout.get_txout]
   | none =>
     create_tx [(unvault_input.1.outpoint, unvault_input.2)] [emer_txout.get_txout]⟩

/-- The spend transaction newtype. -/
structure SpendTransaction where
  tx : Transaction
  deriving DecidableEq

/-- SpendTransaction::new (transactions.rs lines 205-228): one caller-supplied
sequence per unvault input, outputs materialized from the role-tagged list. -/
def SpendTransaction.new (unvault_inputs : List (UnvaultPrevout × Nat))
    (spend_txouts : List SpendTxOut) : SpendTransaction :=
  ⟨{ version := 2
     lock_time := 0
     input := unvault_inputs.map (fun input =>
       { TxIn.default with previous_output := input.1.outpoint, sequence := input.2 })
     output := spend_txouts.map (fun spend_txout =>
       match spend_txout with
       | SpendTxOut.Destination txo => txo
       | SpendTxOut.Change txo => txo) }⟩

/-- The funding transaction wrapper (not built by this system). -/
structure VaultTransaction where
  tx : Transaction
  deriving DecidableEq

/-- VaultTransaction::new (transactions.rs lines 238-240). -/
def VaultTransaction.new (tx : Transaction) : VaultTransaction := ⟨tx⟩

/-- The fee-bumping transaction wrapper (not built by this system). -/
structure FeeBumpTransaction where
  tx : Transaction
  deriving DecidableEq

/-- FeeBumpTransaction::new (transactions.rs lines 250-252). -/
def FeeBumpTransaction.new (tx : Transaction) : FeeBumpTransaction := ⟨tx⟩

/-! The RevaultTransaction trait default method into_prevout (lines 31-36).
The txid computation lives in the external bitcoin library, so it is passed
as an explicit function parameter. -/

/-- RevaultTransaction::into_prevout on the inner transaction: build an
outpoint from the transaction id and the requested output index, with no
bounds check against the output list. -/
def into_prevout (txid : Transaction → Txid) (tx : Transaction) (vout : Nat) : OutPoint :=
  { txid := txid tx, vout := vout }

def UnvaultTransaction.into_prevout (txid : Transaction → Txid)
    (t : UnvaultTransaction) (vout : Nat) : OutPoint :=
  RevaultTx.into_prevout txid t.tx vout

def CancelTransaction.into_prevout (txid : Transaction → Txid)
    (t : CancelTransaction) (vout : Nat) : OutPoint :=
  RevaultTx.into_prevout txid t.tx vout

def EmergencyTransaction.into_prevout (txid : Transaction → Txid)
    (t : EmergencyTransaction) (vout : Nat) : OutPoint :=
  RevaultTx.into_prevout txid t.tx vout

def UnvaultEmergencyTransaction.into_prevout (txid : Transaction → Txid)
    (t : UnvaultEmergencyTransaction) (vout : Nat) : OutPoint :=
  RevaultTx.into_prevout txid t.tx vout

def SpendTransaction.into_prevout (txid : Transaction → Txid)
    (t : SpendTransaction) (vout : Nat) : OutPoint :=
  RevaultTx.into_prevout txid t.tx vout

def VaultTransaction.into_prevout (txid : Transaction → Txid)
    (t : VaultTransaction) (vout : Nat) : OutPoint :=
  RevaultTx.into_prevout txid t.tx vout

def FeeBumpTransaction.into_prevout (txid : Transaction → Txid)
    (t : FeeBumpTransaction) (vout : Nat) : OutPoint :=
  RevaultTx.into_prevout txid t.tx vout

/-! Signature hash computation (transactions.rs lines 256-399). -/

/-- The two sighash modes the code ever selects (bitcoin::SigHashType). -/
inductive SigHashType
  | All
  | AllPlusAnyoneCanPay
  deriving DecidableEq

/-- The BIP143 digest produced by the external bitcoin library
(SigHashCache::signature_hash), embedded as the tuple of the data it is a
pure function of: the transaction, the input index, the script code, the
spent amount and the selected sighash type. -/
structure SigHash where
  tx : Transaction
  input_index : Nat
  script_code : Script
  value : Nat
  hash_type : SigHashType
  deriving DecidableEq

/-- The external library call SigHashCache::new(tx).signature_hash(...). -/
def bip143_signature_hash (tx : Transaction) (input_index : Nat)
    (script_code : Script) (value : Nat) (ty : SigHashType) : SigHash :=
  ⟨tx, input_index, script_code, value, ty⟩

/-- The shared internal sighash routine (transactions.rs lines 256-275):
select SIGHASH_ALL or SIGHASH_ALL|ANYONECANPAY from the boolean and defer
to the library digest over the spent output's amount. -/
def sighash (tx : Transaction) (input_index : Nat) (previous_txout : TxOut)
    (script_code : Script) (is_anyonecanpay : Bool) : SigHash :=
  bip143_signature_hash tx input_index script_code previous_txout.value
    (if is_anyonecanpay then SigHashType.AllPlusAnyoneCanPay else SigHashType.All)

/-- UnvaultTransaction::signature_hash (lines 291-304): no anyone-can-pay
parameter, the flag is hard-coded to false. -/
def UnvaultTransaction.signature_hash (t : UnvaultTransaction) (input_index : Nat)
    (previous_txout : VaultTxOut) (script_code : Script) : SigHash :=
  sighash t.tx input_index previous_txout.inner_txout script_code false

/-- CancelTransaction::signature_hash (lines 315-329): caller-selectable
anyone-can-pay flag. -/
def CancelTransaction.signature_hash (t : CancelTransaction) (input_index : Nat)
    (previous_txout : TxOut) (script_code : Script) (is_anyonecanpay : Bool) : SigHash :=
  sighash t.tx input_index previous_txout script_code is_anyonecanpay

/-- EmergencyTransaction::signature_hash (lines 340-355). -/
def EmergencyTransaction.signature_hash (t : EmergencyTransaction) (input_index : Nat)
    (previous_txout : TxOut) (script_code : Script) (is_anyonecanpay : Bool) : SigHash :=
  sighash t.tx input_index previous_txout script_code is_anyonecanpay

/-- UnvaultEmergencyTransaction::signature_hash (lines 365-380). -/
def UnvaultEmergencyTransaction.signature_hash (t : UnvaultEmergencyTransaction)
    (input_index : Nat) (previous_txout : TxOut) (script_code : Script)
    (is_anyonecanpay : Bool) : SigHash :=
  sighash t.tx input_index previous_txout script_code is_anyonecanpay

/-- SpendTransaction::signature_hash (lines 385-398): no anyone-can-pay
parameter, the flag is hard-coded to false. -/
def SpendTransaction.signature_hash (t : SpendTransaction) (input_index : Nat)
    (previous_txout : UnvaultTxOut) (script_code : Script) : SigHash :=
  sighash t.tx input_index previous_txout.inner_txout script_code false

/-! Error type and satisfier engine (transactions.rs lines 401-525). -/

/-- Modelled from the spec: the payload of an input-satisfaction error
(crate::error, not under src); the formatted message carries either the
out-of-bounds input index or the underlying satisfaction engine text. -/
inductive InputSatisfactionMsg
  | indexOutOfBounds (input_index : Nat)
  | scriptSatisfaction (e : String)
  deriving DecidableEq

/-- Modelled from the spec: the payload of a transaction-verification error
(crate::error, not under src); either the oracle's diagnostic or the
offending input of an unresolved previous output. -/
inductive TransactionVerificationMsg
  | bitcoinconsensus (err : String)
  | unknownTxout (txin : TxIn)
  deriving DecidableEq

/-- Modelled from the spec: the crate error enum (crate::error, not under
src), as used by transactions.rs. -/
inductive Error
  | InputSatisfaction (msg : InputSatisfactionMsg)
  | TransactionVerification (msg : TransactionVerificationMsg)
  deriving DecidableEq

/-- RevaultInputSatisfier (lines 403-407): the key-hash-to-key map, the
key-to-(signature, sighash-type) map and the input's sequence number.  The
two hash maps are embedded as lookup functions. -/
structure RevaultInputSatisfier (Pk PkHash Sig : Type) where
  pkhashmap : PkHash → Option Pk
  sigmap : Pk → Option (Sig × SigHashType)
  sequence : Nat

/-- RevaultInputSatisfier::new (lines 410-416): empty maps, the given
sequence. -/
def RevaultInputSatisfier.new (Pk PkHash Sig : Type) (sequence : Nat) :
    RevaultInputSatisfier Pk PkHash Sig :=
  { sequence := sequence, pkhashmap := fun _ => none, sigmap := fun _ => none }

/-- RevaultInputSatisfier::insert_sig (lines 418-437): record the key under
its hash, store (signature, mode) for the key, return the previously stored
(signature, mode) for that key. -/
def RevaultInputSatisfier.insert_sig {Pk PkHash Sig : Type}
    [DecidableEq Pk] [DecidableEq PkHash] (to_pubkeyhash : Pk → PkHash)
    (s : RevaultInputSatisfier Pk PkHash Sig) (pubkey : Pk) (sig : Sig)
    (is_anyonecanpay : Bool) :
    RevaultInputSatisfier Pk PkHash Sig × Option (Sig × SigHashType) :=
  ({ s with
      pkhashmap := fun h =>
        if h = to_pubkeyhash pubkey then some pubkey else s.pkhashmap h
      sigmap := fun k =>
        if k = pubkey then
          some (sig,
            if is_anyonecanpay then SigHashType.AllPlusAnyoneCanPay
            else SigHashType.All)
        else s.sigmap k },
   s.sigmap pubkey)

/-- Satisfier::lookup_sig (lines 441-443). -/
def RevaultInputSatisfier.lookup_sig {Pk PkHash Sig : Type}
    (s : RevaultInputSatisfier Pk PkHash Sig) (key : Pk) :
    Option (Sig × SigHashType) :=
  s.sigmap key

/-- Satisfier::lookup_pkh_sig (lines 447-454): resolve the hash to a key,
then reuse lookup_sig. -/
def RevaultInputSatisfier.lookup_pkh_sig {Pk PkHash Sig PubKey : Type}
    (to_public_key : Pk → PubKey) (s : RevaultInputSatisfier Pk PkHash Sig)
    (keyhash : PkHash) : Option (PubKey × (Sig × SigHashType)) :=
  match s.pkhashmap keyhash with
  | some key =>
    match s.lookup_sig key with
    | some st => some (to_public_key key, st)
    | none => none
  | none => none

/-- Satisfier::check_after (lines 456-458): exact equality between the
stored sequence and the queried relative-timelock value. -/
def RevaultInputSatisfier.check_after {Pk PkHash Sig : Type}
    (s : RevaultInputSatisfier Pk PkHash Sig) (csv : Nat) : Bool :=
  s.sequence == csv

/-- The external miniscript policy descriptor (collaborator per the spec):
only its satisfaction algorithm is visible to this code; it sees the input
and the satisfier state (through the Satisfier trait methods) and returns
the updated input or an error text. -/
structure Descriptor (Pk PkHash Sig : Type) where
  satisfy : TxIn → RevaultInputSatisfier Pk PkHash Sig → Except String TxIn

/-- RevaultSatisfier (lines 463-467): the borrowed input, the descriptor
and the inner input satisfier. -/
structure RevaultSatisfier (Pk PkHash Sig : Type) where
  txin : TxIn
  descriptor : Descriptor Pk PkHash Sig
  satisfier : RevaultInputSatisfier Pk PkHash Sig

/-- RevaultSatisfier::new (lines 475-494): look the input up by index; on
success bind a fresh input satisfier to its sequence, otherwise return the
out-of-bounds input-satisfaction error. -/
def RevaultSatisfier.new {Pk PkHash Sig : Type} (transaction : Transaction)
    (input_index : Nat) (descriptor : Descriptor Pk PkHash Sig) :
    Except Error (RevaultSatisfier Pk PkHash Sig) :=
  match transaction.input.get? input_index with
  | some txin =>
    Except.ok
      { satisfier := RevaultInputSatisfier.new Pk PkHash Sig txin.sequence
        txin := txin
        descriptor := descriptor }
  | none =>
    Except.error (Error.InputSatisfaction
      (InputSatisfactionMsg.indexOutOfBounds input_index))

/-- RevaultSatisfier::insert_sig (lines 501-508): forward to the inner
satisfier. -/
def RevaultSatisfier.insert_sig {Pk PkHash Sig : Type}
    [DecidableEq Pk] [DecidableEq PkHash] (to_pubkeyhash : Pk → PkHash)
    (rs : RevaultSatisfier Pk PkHash Sig) (pubkey : Pk) (sig : Sig)
    (is_anyonecanpay : Bool) :
    RevaultSatisfier Pk PkHash Sig × Option (Sig × SigHashType) :=
  let r := rs.satisfier.insert_sig to_pubkeyhash pubkey sig is_anyonecanpay
  ({ rs with satisfier := r.1 }, r.2)

/-- RevaultSatisfier::satisfy (lines 515-524): run the descriptor's
satisfaction algorithm over the input with the collected state; wrap its
error, otherwise keep the updated (witness-populated) input. -/
def RevaultSatisfier.satisfy {Pk PkHash Sig : Type}
    (rs : RevaultSatisfier Pk PkHash Sig) :
    Except Error (RevaultSatisfier Pk PkHash Sig) :=
  match rs.descriptor.satisfy rs.txin rs.satisfier with
  | Except.error e =>
    Except.error (Error.InputSatisfaction (InputSatisfactionMsg.scriptSatisfaction e))
  | Except.ok txin2 => Except.ok { rs with txin := txin2 }

/-! Chain verifier (transactions.rs lines 532-580).  The txid computation,
the consensus serialization and the libbitcoinconsensus oracle are external
library calls, passed as explicit function parameters. -/

/-- The libbitcoinconsensus script-verification oracle signature:
(script, amount, serialized transaction, input index). -/
abbrev Oracle := Script → Nat → List Nat → Nat → Except String Unit

/-- get_prev_script_and_value (lines 538-553): scan the candidate set for
the first transaction whose id matches the prevout's id and take its output
at the referenced index, if present. -/
def get_prev_script_and_value (txid : Transaction → Txid) (prevout : OutPoint) :
    List Transaction → Option (Script × Nat)
  | [] => none
  | prev_tx :: rest =>
    if txid prev_tx = prevout.txid then
      (prev_tx.output.get? prevout.vout).map
        (fun txo => (txo.script_pubkey, txo.value))
    else
      get_prev_script_and_value txid prevout rest

/-- The loop body of verify_revault_transaction (lines 555-577) over the
remaining inputs, carrying the enumeration index. -/
def verify_inputs (txid : Transaction → Txid) (oracle : Oracle)
    (serialized : List Nat) (previous_transactions : List Transaction) :
    Nat → List TxIn → Except Error Unit
  | _, [] => Except.ok ()
  | index, txin :: rest =>
    match get_prev_script_and_value txid txin.previous_output previous_transactions with
    | some (raw_script_pubkey, value) =>
      match oracle raw_script_pubkey value serialized index with
      | Except.error err =>
        Except.error (Error.TransactionVerification
          (TransactionVerificationMsg.bitcoinconsensus err))
      | Except.ok _ =>
        verify_inputs txid oracle serialized previous_transactions (index + 1) rest
    | none =>
      Except.error (Error.TransactionVerification
        (TransactionVerificationMsg.unknownTxout txin))

/-- verify_revault_transaction (lines 532-580): resolve and check every
input in order against the serialized transaction under test. -/
def verify_revault_transaction (txid : Transaction → Txid) (oracle : Oracle)
    (serialize : Transaction → List Nat) (revault_tx : Transaction)
    (previous_transactions : List Transaction) : Except Error Unit :=
  verify_inputs txid oracle (serialize revault_tx) previous_transactions 0
    revault_tx.input

/-- An input of the transaction under test resolves against the candidate
set and passes the oracle at its index. -/
def input_resolves_and_passes (txid : Transaction → Txid) (oracle : Oracle)
    (serialized : List Nat) (prevs : List Transaction) (index : Nat)
    (txin : TxIn) : Prop :=
  ∃ spk value,
    get_prev_script_and_value txid txin.previous_output prevs = some (spk, value) ∧
    oracle spk value serialized index = Except.ok ()

/-! Theorems settling the claims. -/

/-- C1: the claim says every input of a Cancel / Emergency / UnvaultEmergency
transaction built by its constructor carries sequence RBF_SEQUENCE for all
caller-supplied arguments.  The constructors instead copy the caller-supplied
sequence of each input: at caller sequence 0 (and fee-bump sequence 7) the
built inputs carry sequences 0 and 7, not RBF_SEQUENCE. -/
theorem C1_sequences_follow_caller_not_rbf :
    (CancelTransaction.new (⟨⟨1, 0⟩⟩, 0) none ⟨⟨100, []⟩⟩).tx.input.map
        (fun i => i.sequence) = [0] ∧
    (EmergencyTransaction.new (⟨⟨1, 0⟩⟩, 0) none ⟨⟨100, []⟩⟩).tx.input.map
        (fun i => i.sequence) = [0] ∧
    (UnvaultEmergencyTransaction.new (⟨⟨1, 0⟩⟩, 0) (some (⟨⟨2, 0⟩⟩, 7))
        ⟨⟨100, []⟩⟩).tx.input.map (fun i => i.sequence) = [0, 7] ∧
    (0 : Nat) ≠ RBF_SEQUENCE ∧ (7 : Nat) ≠ RBF_SEQUENCE := by
  refine ⟨rfl, rfl, rfl, by decide, by decide⟩

/-- C3: the claim says SpendTransaction::new applies a single caller-supplied
sequence uniformly to all inputs of the call.  The constructor instead takes
one sequence per input: a single call with per-input sequences 1 and 2 builds
a transaction whose inputs carry the distinct sequences 1 and 2. -/
theorem C3_spend_sequences_are_per_input :
    (SpendTransaction.new [(⟨⟨1, 0⟩⟩, 1), (⟨⟨1, 1⟩⟩, 2)]
        [SpendTxOut.Destination ⟨5, []⟩]).tx.input.map
        (fun i => i.sequence) = [1, 2] ∧
    (1 : Nat) ≠ 2 := by
  refine ⟨rfl, by decide⟩

/-- C4: UnvaultTransaction::signature_hash and SpendTransaction::signature_hash
take no anyone-can-pay selector and equal the shared internal sighash routine
invoked with the anyone-can-pay flag false, so the digest is computed under
SIGHASH_ALL. -/
theorem C4_unvault_spend_sighash_all :
    ∀ (utx : UnvaultTransaction) (stx : SpendTransaction) (i : Nat)
      (vtxo : VaultTxOut) (utxo : UnvaultTxOut) (sc : Script),
      utx.signature_hash i vtxo sc = sighash utx.tx i vtxo.inner_txout sc false ∧
      stx.signature_hash i utxo sc = sighash stx.tx i utxo.inner_txout sc false ∧
      (utx.signature_hash i vtxo sc).hash_type = SigHashType.All ∧
      (stx.signature_hash i utxo sc).hash_type = SigHashType.All := by
  intro utx stx i vtxo utxo sc
  exact ⟨rfl, rfl, rfl, rfl⟩

/-- C7: every raw transaction produced by the five constructors, for all
caller-supplied arguments, has version 2 and lock-time 0. -/
theorem C7_version_two_locktime_zero :
    ∀ (vi : VaultPrevout × Nat) (uo : UnvaultTxOut) (co : CpfpTxOut)
      (ui : UnvaultPrevout × Nat) (fb : Option (FeeBumpPrevout × Nat))
      (vo : VaultTxOut) (vi2 : VaultPrevout × Nat) (eo : EmergencyTxOut)
      (sis : List (UnvaultPrevout × Nat)) (sos : List SpendTxOut),
      ((UnvaultTransaction.new vi uo co).tx.version = 2 ∧
        (UnvaultTransaction.new vi uo co).tx.lock_time = 0) ∧
      ((CancelTransaction.new ui fb vo).tx.version = 2 ∧
        (CancelTransaction.new ui fb vo).tx.lock_time = 0) ∧
      ((EmergencyTransaction.new vi2 fb eo).tx.version = 2 ∧
        (EmergencyTransaction.new vi2 fb eo).tx.lock_time = 0) ∧
      ((UnvaultEmergencyTransaction.new ui fb eo).tx.version = 2 ∧
        (UnvaultEmergencyTransaction.new ui fb eo).tx.lock_time = 0) ∧
      ((SpendTransaction.new sis sos).tx.version = 2 ∧
        (SpendTransaction.new sis sos).tx.lock_time = 0) := by
  intro vi uo co ui fb vo vi2 eo sis sos
  refine ⟨⟨rfl, rfl⟩, ?_, ?_, ?_, ⟨rfl, rfl⟩⟩ <;> cases fb <;> exact ⟨rfl, rfl⟩

/-- C8: for the Cancel, Emergency and UnvaultEmergency constructors,
supplying the optional fee-bump input appends exactly one input (built from
the fee-bump outpoint and sequence) after the inputs of the fee-bump-less
call, and leaves the output list unchanged. -/
theorem C8_feebump_appended_last_outputs_unchanged :
    ∀ (u : UnvaultPrevout × Nat) (v : VaultPrevout × Nat)
      (fb : FeeBumpPrevout × Nat) (vo : VaultTxOut) (eo : EmergencyTxOut),
      ((CancelTransaction.new u (some fb) vo).tx.input =
        (CancelTransaction.new u none vo).tx.input ++
          [{ TxIn.default with previous_output := fb.1.outpoint, sequence := fb.2 }] ∧
       (CancelTransaction.new u (some fb) vo).tx.output =
        (CancelTransaction.new u none vo).tx.output) ∧
      ((EmergencyTransaction.new v (some fb) eo).tx.input =
        (EmergencyTransaction.new v none eo).tx.input ++
          [{ TxIn.default with previous_output := fb.1.outpoint, sequence := fb.2 }] ∧
       (EmergencyTransaction.new v (some fb) eo).tx.output =
        (EmergencyTransaction.new v none eo).tx.output) ∧
      ((UnvaultEmergencyTransaction.new u (some fb) eo).tx.input =
        (UnvaultEmergencyTransaction.new u none eo).tx.input ++
          [{ TxIn.default with previous_output := fb.1.outpoint, sequence := fb.2 }] ∧
       (UnvaultEmergencyTransaction.new u (some fb) eo).tx.output =
        (UnvaultEmergencyTransaction.new u none eo).tx.output) := by
  intro u v fb vo eo
  exact ⟨⟨rfl, rfl⟩, ⟨rfl, rfl⟩, ⟨rfl, rfl⟩⟩

/-- Helper: the verifier loop succeeds iff every remaining input resolves
and passes the oracle at its enumerated index. -/
theorem verify_inputs_ok_iff (txid : Transaction → Txid) (oracle : Oracle)
    (ser : List Nat) (prevs : List Transaction) :
    ∀ (l : List TxIn) (k : Nat),
      verify_inputs txid oracle ser prevs k l = Except.ok () ↔
        ∀ i txin, l.get? i = some txin →
          input_resolves_and_passes txid oracle ser prevs (k + i) txin := by
  intro l
  induction l with
  | nil =>
    intro k
    simp [verify_inputs]
  | cons txin rest ih =>
    intro k
    rw [verify_inputs]
    cases hres : get_prev_script_and_value txid txin.previous_output prevs with
    | none =>
      simp only
      constructor
      · intro h
        cases h
      · intro h
        obtain ⟨spk, value, hsome, _⟩ := h 0 txin rfl
        rw [hres] at hsome
        cases hsome
    | some pv =>
      obtain ⟨spk, value⟩ := pv
      simp only
      cases hor : oracle spk value ser k with
      | error err =>
        simp only
        constructor
        · intro h
          cases h
        · intro h
          obtain ⟨spk2, value2, hsome, hok⟩ := h 0 txin rfl
          rw [hres] at hsome
          cases hsome
          rw [Nat.add_zero] at hok
          rw [hor] at hok
          cases hok
      | ok u =>
        simp only
        rw [ih (k + 1)]
        constructor
        · intro h i txin2 hget
          cases i with
          | zero =>
            cases hget
            refine ⟨spk, value, hres, ?_⟩
            rw [Nat.add_zero]
            rw [hor]
          | succ j =>
            have := h j txin2 hget
            have harith : k + 1 + j = k + (j + 1) := by omega
            rw [harith] at this
            exact this
        · intro h i txin2 hget
          have := h (i + 1) txin2 hget
          have harith : k + (i + 1) = k + 1 + i := by omega
          rw [harith] at this
          exact this

/-- Helper: if every input before position i resolves and passes, and the
input at position i does not resolve, the verifier loop returns the
unresolved-previous-output error naming that input. -/
theorem verify_inputs_unresolved (txid : Transaction → Txid) (oracle : Oracle)
    (ser : List Nat) (prevs : List Transaction) :
    ∀ (l : List TxIn) (k i : Nat) (txin : TxIn),
      l.get? i = some txin →
      (∀ j txinj, j < i → l.get? j = some txinj →
        input_resolves_and_passes txid oracle ser prevs (k + j) txinj) →
      get_prev_script_and_value txid txin.previous_output prevs = none →
      verify_inputs txid oracle ser prevs k l =
        Except.error (Error.TransactionVerification
          (TransactionVerificationMsg.unknownTxout txin)) := by
  intro l
  induction l with
  | nil =>
    intro k i txin hget
    cases hget
  | cons a rest ih =>
    intro k i txin hget hpre hnone
    cases i with
    | zero =>
      cases hget
      rw [verify_inputs, hnone]
    | succ j =>
      obtain ⟨spk, value, hres, hok⟩ := hpre 0 a (Nat.succ_pos j) rfl
      rw [Nat.add_zero] at hok
      rw [verify_inputs]
      simp only [hres, hok]
      refine ih (k + 1) j txin hget ?_ hnone
      intro j2 txinj hj2 hgetj
      have := hpre (j2 + 1) txinj (Nat.succ_lt_succ hj2) hgetj
      have harith : k + (j2 + 1) = k + 1 + j2 := by omega
      rw [harith] at this
      exact this

/-- Helper: if every input before position i resolves and passes, the input
at position i resolves, and the oracle rejects it, the verifier loop
surfaces the oracle failure as a verification error. -/
theorem verify_inputs_oracle_error (txid : Transaction → Txid) (oracle : Oracle)
    (ser : List Nat) (prevs : List Transaction) :
    ∀ (l : List TxIn) (k i : Nat) (txin : TxIn) (spk : Script) (value : Nat)
      (err : String),
      l.get? i = some txin →
      (∀ j txinj, j < i → l.get? j = some txinj →
        input_resolves_and_passes txid oracle ser prevs (k + j) txinj) →
      get_prev_script_and_value txid txin.previous_output prevs = some (spk, value) →
      oracle spk value ser (k + i) = Except.error err →
      verify_inputs txid oracle ser prevs k l =
        Except.error (Error.TransactionVerification
          (TransactionVerificationMsg.bitcoinconsensus err)) := by
  intro l
  induction l with
  | nil =>
    intro k i txin spk value err hget
    cases hget
  | cons a rest ih =>
    intro k i txin spk value err hget hpre hres horr
    cases i with
    | zero =>
      cases hget
      rw [Nat.add_zero] at horr
      rw [verify_inputs]
      simp only [hres, horr]
    | succ j =>
      obtain ⟨spk0, value0, hres0, hok0⟩ := hpre 0 a (Nat.succ_pos j) rfl
      rw [Nat.add_zero] at hok0
      rw [verify_inputs]
      simp only [hres0, hok0]
      have harith : k + (j + 1) = k + 1 + j := by omega
      rw [harith] at horr
      refine ih (k + 1) j txin spk value err hget ?_ hres horr
      intro j2 txinj hj2 hgetj
      have := hpre (j2 + 1) txinj (Nat.succ_lt_succ hj2) hgetj
      have harith2 : k + (j2 + 1) = k + 1 + j2 := by omega
      rw [harith2] at this
      exact this

/-- C5: verify_revault_transaction succeeds iff every input of the
transaction under test resolves against the candidate set (first candidate
with matching txid, output at the referenced index present, per
get_prev_script_and_value) and passes the script-verification oracle over
the serialized transaction at that input's index; the first input that
fails to resolve yields the unresolved-previous-output error naming it, and
the first resolved input the oracle rejects yields a verification error
carrying the oracle's diagnostic. -/
theorem C5_verify_revault_transaction_behavior :
    ∀ (txid : Transaction → Txid) (oracle : Oracle)
      (serialize : Transaction → List Nat) (tx : Transaction)
      (prevs : List Transaction),
      (verify_revault_transaction txid oracle serialize tx prevs = Except.ok () ↔
        ∀ i txin, tx.input.get? i = some txin →
          input_resolves_and_passes txid oracle (serialize tx) prevs i txin) ∧
      (∀ i txin, tx.input.get? i = some txin →
        (∀ j txinj, j < i → tx.input.get? j = some txinj →
          input_resolves_and_passes txid oracle (serialize tx) prevs j txinj) →
        get_prev_script_and_value txid txin.previous_output prevs = none →
        verify_revault_transaction txid oracle serialize tx prevs =
          Except.error (Error.TransactionVerification
            (TransactionVerificationMsg.unknownTxout txin))) ∧
      (∀ i txin spk value err, tx.input.get? i = some txin →
        (∀ j txinj, j < i → tx.input.get? j = some txinj →
          input_resolves_and_passes txid oracle (serialize tx) prevs j txinj) →
        get_prev_script_and_value txid txin.previous_output prevs = some (spk, value) →
        oracle spk value (serialize tx) i = Except.error err →
        verify_revault_transaction txid oracle serialize tx prevs =
          Except.error (Error.TransactionVerification
            (TransactionVerificationMsg.bitcoinconsensus err))) := by
  intro txid oracle serialize tx prevs
  refine ⟨?_, ?_, ?_⟩
  · rw [verify_revault_transaction,
      verify_inputs_ok_iff txid oracle (serialize tx) prevs tx.input 0]
    constructor
    · intro h i txin hget
      have := h i txin hget
      rw [Nat.zero_add] at this
      exact this
    · intro h i txin hget
      rw [Nat.zero_add]
      exact h i txin hget
  · intro i txin hget hpre hnone
    rw [verify_revault_transaction]
    refine verify_inputs_unresolved txid oracle (serialize tx) prevs tx.input 0 i
      txin hget ?_ hnone
    intro j txinj hj hgetj
    rw [Nat.zero_add]
    exact hpre j txinj hj hgetj
  · intro i txin spk value err hget hpre hres horr
    rw [verify_revault_transaction]
    refine verify_inputs_oracle_error txid oracle (serialize tx) prevs tx.input 0 i
      txin spk value err hget ?_ hres ?_
    · intro j txinj hj hgetj
      rw [Nat.zero_add]
      exact hpre j txinj hj hgetj
    · rw [Nat.zero_add]
      exact horr

/-- C5 witness: a one-input transaction whose previous output is absent from
the empty candidate set is rejected with the unresolved-previous-output
error naming that input. -/
theorem C5_verify_witness :
    verify_revault_transaction (fun _ => 0) (fun _ _ _ _ => Except.ok ())
        (fun _ => []) (⟨2, 0, [TxIn.default], []⟩ : Transaction) [] =
      Except.error (Error.TransactionVerification
        (TransactionVerificationMsg.unknownTxout TxIn.default)) :=
  (C5_verify_revault_transaction_behavior (fun _ => 0) (fun _ _ _ _ => Except.ok ())
    (fun _ => []) ⟨2, 0, [TxIn.default], []⟩ []).2.1 0 TxIn.default rfl
    (fun j _ hj _ => absurd hj (Nat.not_lt_zero j)) rfl

/-- C10: into_prevout builds the outpoint (txid of the inner transaction,
requested index) unconditionally for every variant, with no bounds check:
in particular the same outpoint is produced when the index is not smaller
than the output count. -/
theorem C10_into_prevout_is_unchecked :
    ∀ (txid : Transaction → Txid) (t : Transaction) (vout : Nat)
      (ut : UnvaultTransaction) (ct : CancelTransaction)
      (et : EmergencyTransaction) (uet : UnvaultEmergencyTransaction)
      (st : SpendTransaction) (vt : VaultTransaction) (ft : FeeBumpTransaction),
      into_prevout txid t vout = { txid := txid t, vout := vout } ∧
      (t.output.length ≤ vout →
        into_prevout txid t vout = { txid := txid t, vout := vout }) ∧
      ut.into_prevout txid vout = { txid := txid ut.tx, vout := vout } ∧
      ct.into_prevout txid vout = { txid := txid ct.tx, vout := vout } ∧
      et.into_prevout txid vout = { txid := txid et.tx, vout := vout } ∧
      uet.into_prevout txid vout = { txid := txid uet.tx, vout := vout } ∧
      st.into_prevout txid vout = { txid := txid st.tx, vout := vout } ∧
      vt.into_prevout txid vout = { txid := txid vt.tx, vout := vout } ∧
      ft.into_prevout txid vout = { txid := txid ft.tx, vout := vout } := by
  intro txid t vout ut ct et uet st vt ft
  exact ⟨rfl, fun _ => rfl, rfl, rfl, rfl, rfl, rfl, rfl, rfl⟩

/-- C2: the relative-timelock predicate supplied to the policy-satisfaction
algorithm (check_after) succeeds iff the queried value equals the satisfier
state's sequence number exactly; in particular a state built over sequence
V-1 (for positive V) or V+1 rejects the query V, while sequence V accepts. -/
theorem C2_check_after_exact_match :
    ∀ (Pk PkHash Sig : Type) (st : RevaultInputSatisfier Pk PkHash Sig) (csv : Nat),
      (st.check_after csv = true ↔ csv = st.sequence) ∧
      (∀ V : Nat, 0 < V →
        (RevaultInputSatisfier.new Pk PkHash Sig (V - 1)).check_after V = false) ∧
      (∀ V : Nat,
        (RevaultInputSatisfier.new Pk PkHash Sig (V + 1)).check_after V = false) ∧
      (∀ V : Nat,
        (RevaultInputSatisfier.new Pk PkHash Sig V).check_after V = true) := by
  intro Pk PkHash Sig st csv
  refine ⟨?_, ?_, ?_, ?_⟩
  · simp only [RevaultInputSatisfier.check_after, beq_iff_eq]
    exact eq_comm
  · intro V hV
    simp only [RevaultInputSatisfier.check_after, RevaultInputSatisfier.new,
      beq_eq_false_iff_ne, ne_eq]
    omega
  · intro V
    simp only [RevaultInputSatisfier.check_after, RevaultInputSatisfier.new,
      beq_eq_false_iff_ne, ne_eq]
    omega
  · intro V
    simp [RevaultInputSatisfier.check_after, RevaultInputSatisfier.new]

/-- C2 witness: concrete exact-match checks at V = 42 with sequences 41, 43
and 42. -/
theorem C2_check_after_witness :
    (RevaultInputSatisfier.new Nat Nat Nat 41).check_after 42 = false ∧
    (RevaultInputSatisfier.new Nat Nat Nat 43).check_after 42 = false ∧
    (RevaultInputSatisfier.new Nat Nat Nat 42).check_after 42 = true :=
  ⟨(C2_check_after_exact_match Nat Nat Nat
      (RevaultInputSatisfier.new Nat Nat Nat 0) 0).2.1 42 (by decide),
   (C2_check_after_exact_match Nat Nat Nat
      (RevaultInputSatisfier.new Nat Nat Nat 0) 0).2.2.1 42,
   (C2_check_after_exact_match Nat Nat Nat
      (RevaultInputSatisfier.new Nat Nat Nat 0) 0).2.2.2 42⟩

/-- C6: RevaultSatisfier::new returns the out-of-bounds input-satisfaction
error iff the input index is not smaller than the transaction's input count,
and for an in-bounds index returns a satisfier bound to that input (its
fresh inner satisfier carries the input's sequence). -/
theorem C6_satisfier_new_errs_iff_out_of_bounds :
    ∀ (Pk PkHash Sig : Type) (tx : Transaction) (i : Nat)
      (d : Descriptor Pk PkHash Sig),
      (RevaultSatisfier.new tx i d =
        Except.error (Error.InputSatisfaction
          (InputSatisfactionMsg.indexOutOfBounds i)) ↔
        tx.input.length ≤ i) ∧
      (∀ txin, tx.input.get? i = some txin →
        RevaultSatisfier.new tx i d = Except.ok
          { txin := txin, descriptor := d
            satisfier := RevaultInputSatisfier.new Pk PkHash Sig txin.sequence }) := by
  intro Pk PkHash Sig tx i d
  cases h : tx.input.get? i with
  | none =>
    have hg : tx.input[i]? = none := by
      rw [← List.get?_eq_getElem?]
      exact h
    have hlen : tx.input.length ≤ i := List.get?_eq_none.mp h
    refine ⟨⟨fun _ => hlen, fun _ => ?_⟩, fun txin htxin => Option.noConfusion htxin⟩
    simp [RevaultSatisfier.new, hg]
  | some txin0 =>
    have hg : tx.input[i]? = some txin0 := by
      rw [← List.get?_eq_getElem?]
      exact h
    have hlen : ¬ tx.input.length ≤ i := by
      intro hle
      rw [List.get?_eq_none.mpr hle] at h
      cases h
    refine ⟨⟨fun heq => ?_, fun hle => absurd hle hlen⟩, fun txin htxin => ?_⟩
    · exfalso
      simp [RevaultSatisfier.new, hg] at heq
    · cases htxin
      simp [RevaultSatisfier.new, hg]

/-- C6 witness: a one-input transaction yields a satisfier bound to its only
input at index 0, and the out-of-bounds error at index 7. -/
theorem C6_satisfier_new_witness :
    RevaultSatisfier.new (⟨2, 0, [TxIn.default], []⟩ : Transaction) 0
        (⟨fun t _ => Except.ok t⟩ : Descriptor Nat Nat Nat) = Except.ok
      { txin := TxIn.default, descriptor := ⟨fun t _ => Except.ok t⟩
        satisfier := RevaultInputSatisfier.new Nat Nat Nat 4294967295 } ∧
    RevaultSatisfier.new (⟨2, 0, [TxIn.default], []⟩ : Transaction) 7
        (⟨fun t _ => Except.ok t⟩ : Descriptor Nat Nat Nat) =
      Except.error (Error.InputSatisfaction
        (InputSatisfactionMsg.indexOutOfBounds 7)) :=
  ⟨(C6_satisfier_new_errs_iff_out_of_bounds Nat Nat Nat ⟨2, 0, [TxIn.default], []⟩ 0
      ⟨fun t _ => Except.ok t⟩).2 TxIn.default rfl,
   (C6_satisfier_new_errs_iff_out_of_bounds Nat Nat Nat ⟨2, 0, [TxIn.default], []⟩ 7
      ⟨fun t _ => Except.ok t⟩).1.mpr (by decide)⟩

/-- Helper: inserting the identical (key, signature, mode) twice leaves the
satisfier state of insert_sig equal to that after a single insert. -/
theorem insert_sig_state_idempotent {Pk PkHash Sig : Type}
    [DecidableEq Pk] [DecidableEq PkHash] (toPkh : Pk → PkHash)
    (s : RevaultInputSatisfier Pk PkHash Sig) (k : Pk) (sg : Sig) (acp : Bool) :
    ((s.insert_sig toPkh k sg acp).1.insert_sig toPkh k sg acp).1 =
      (s.insert_sig toPkh k sg acp).1 := by
  unfold RevaultInputSatisfier.insert_sig
  simp only
  congr 1
  · funext h
    by_cases hh : h = toPkh k <;> simp [hh]
  · funext k2
    by_cases hk : k2 = k <;> simp [hk]

/-- C9: insert_sig records the signature for the key under the chosen mode
and returns the previously recorded pair (none if absent); a second insert
for the same key returns the first pair and overwrites it (last write wins);
inserting the identical (key, signature, mode) twice leaves the satisfier
state, and hence the outcome of a subsequent satisfy(), equal to that after
a single insert. -/
theorem C9_insert_sig_overwrite_and_idempotence {Pk PkHash Sig : Type}
    [DecidableEq Pk] [DecidableEq PkHash] :
    ∀ (toPkh : Pk → PkHash) (s : RevaultInputSatisfier Pk PkHash Sig)
      (k : Pk) (sg sg2 : Sig) (acp acp2 : Bool),
      (s.insert_sig toPkh k sg acp).2 = s.sigmap k ∧
      (s.insert_sig toPkh k sg acp).1.sigmap k =
        some (sg, if acp then SigHashType.AllPlusAnyoneCanPay else SigHashType.All) ∧
      ((s.insert_sig toPkh k sg acp).1.insert_sig toPkh k sg2 acp2).2 =
        some (sg, if acp then SigHashType.AllPlusAnyoneCanPay else SigHashType.All) ∧
      ((s.insert_sig toPkh k sg acp).1.insert_sig toPkh k sg2 acp2).1.sigmap k =
        some (sg2, if acp2 then SigHashType.AllPlusAnyoneCanPay else SigHashType.All) ∧
      ((s.insert_sig toPkh k sg acp).1.insert_sig toPkh k sg acp).1 =
        (s.insert_sig toPkh k sg acp).1 ∧
      (∀ rs : RevaultSatisfier Pk PkHash Sig,
        ((rs.insert_sig toPkh k sg acp).1.insert_sig toPkh k sg acp).1.satisfy =
          ((rs.insert_sig toPkh k sg acp).1).satisfy) := by
  intro toPkh s k sg sg2 acp acp2
  refine ⟨rfl, ?_, ?_, ?_, insert_sig_state_idempotent toPkh s k sg acp, ?_⟩
  · simp [RevaultInputSatisfier.insert_sig]
  · simp [RevaultInputSatisfier.insert_sig]
  · simp [RevaultInputSatisfier.insert_sig]
  · intro rs
    have h2 : ((rs.insert_sig toPkh k sg acp).1.insert_sig toPkh k sg acp).1 =
        (rs.insert_sig toPkh k sg acp).1 := by
      show RevaultSatisfier.mk rs.txin rs.descriptor
          ((rs.satisfier.insert_sig toPkh k sg acp).1.insert_sig toPkh k sg acp).1 =
        RevaultSatisfier.mk rs.txin rs.descriptor
          (rs.satisfier.insert_sig toPkh k sg acp).1
      rw [insert_sig_state_idempotent toPkh rs.satisfier k sg acp]
    rw [h2]

/-- C9 witness: the theorem evaluated over the empty satisfier state at key
1: the first insert returns none, the second returns the first pair, and the
doubled state equals the single-insert state. -/
theorem C9_insert_sig_witness :
    ((RevaultInputSatisfier.new Nat Nat Nat 5).insert_sig id 1 10 false).2 = none ∧
    (((RevaultInputSatisfier.new Nat Nat Nat 5).insert_sig id 1 10 false).1.insert_sig
        id 1 11 true).2 = some (10, SigHashType.All) ∧
    (((RevaultInputSatisfier.new Nat Nat Nat 5).insert_sig id 1 10 false).1.insert_sig
        id 1 10 false).1 =
      ((RevaultInputSatisfier.new Nat Nat Nat 5).insert_sig id 1 10 false).1 :=
  ⟨(C9_insert_sig_overwrite_and_idempotence id
      (RevaultInputSatisfier.new Nat Nat Nat 5) 1 10 11 false true).1,
   (C9_insert_sig_overwrite_and_idempotence id
      (RevaultInputSatisfier.new Nat Nat Nat 5) 1 10 11 false true).2.2.1,
   (C9_insert_sig_overwrite_and_idempotence id
      (RevaultInputSatisfier.new Nat Nat Nat 5) 1 10 11 false true).2.2.2.2.1⟩

/-- C10 witness: the unchecked behavior at a concrete transaction with no
outputs and index 5, past the output count. -/
theorem C10_into_prevout_witness :
    into_prevout (fun tx => tx.lock_time) ⟨2, 0, [], []⟩ 5 = { txid := 0, vout := 5 } :=
  ((C10_into_prevout_is_unchecked (fun tx => tx.lock_time) ⟨2, 0, [], []⟩ 5
    ⟨⟨2, 0, [], []⟩⟩ ⟨⟨2, 0, [], []⟩⟩ ⟨⟨2, 0, [], []⟩⟩ ⟨⟨2, 0, [], []⟩⟩
    ⟨⟨2, 0, [], []⟩⟩ ⟨⟨2, 0, [], []⟩⟩ ⟨⟨2, 0, [], []⟩⟩).2.1 (by decide))

end RevaultTx
